import Mathlib

/-!
# Verification of the `stime` timing library core

Shallow embedding of `src/lib.rs` of the `stime` crate: the global timer
state (`CHRONO`, `LAST_DURATION`), the activation gate (`STIME_ACTIVE`),
the swappable output target (`OUTPUT_TARGET`), the `start!` and `check!`
macros, the duration formatter `FDur`, and the scoped timer `time_it`.

Instants and durations are modelled as natural numbers of nanoseconds.
Each macro invocation reads the monotonic clock once; that reading is the
`now` parameter of the corresponding Lean function.  Sinks are identified
by `SinkId`; writes are recorded in a trace of `(sink, line)` pairs, with
a line's formatting abstracted to its structured content.
-/

namespace Stime

/-- Identity of a byte sink: the process standard error stream (the
default target of `Target::new` and of `start!` without a `@target`) or
a caller-supplied custom sink, numbered so distinct sinks can be told
apart. -/
inductive SinkId where
  | stderr : SinkId
  | custom : Nat → SinkId
deriving DecidableEq, Repr

/-- One formatted line, abstracted to its structured content.

* `starting msg` — the `"Starting <msg>"` line of `start!`;
* `checkLine total delta msg` — the
  `"[TotalTime: <total> / DeltaTime: <delta>] <msg>"` line of `check!`,
  carrying the raw durations in nanoseconds (the display goes through
  `FDur`, modelled separately by `fdur`);
* `timeItLine msg dur` — the `"<msg>: <dur>"` line written when a
  `time_it` guard is dropped. -/
inductive Line where
  | starting : String → Line
  | checkLine : Nat → Nat → String → Line
  | timeItLine : String → Nat → Line
deriving DecidableEq, Repr

/-- The process-wide mutable state of the library:

* `chrono` models the `CHRONO : Lazy<Mutex<Instant>>` static; `none`
  means the lazy cell has not been forced yet, `some t` the stored
  instant;
* `lastDuration` models `LAST_DURATION : Lazy<Mutex<Option<Duration>>>`
  (its lazy default is `None`, so the unforced and forced-to-`None`
  states are indistinguishable and are both `none`);
* `outputTarget` models which sink the boxed writer inside
  `OUTPUT_TARGET` currently is (lazy default: stderr);
* `writes` is the chronological trace of every line written so far,
  paired with the sink it was written to. -/
structure StimeState where
  chrono : Option Nat
  lastDuration : Option Nat
  outputTarget : SinkId
  writes : List (SinkId × Line)
deriving DecidableEq, Repr

/-- The state at process start: no lazy cell forced, no line written.
`outputTarget = stderr` is the lazy default of `Target::new`. -/
def initState : StimeState :=
  { chrono := none, lastDuration := none,
    outputTarget := SinkId.stderr, writes := [] }

/-- The `start!(@target, msg)` macro arm, the body all other `start!`
arms expand to.  `active` is the value of `STIME_ACTIVE`; `now` the
`Instant::now()` reading of this call.  When the gate is off it returns
before touching anything.  Otherwise it stores `now` into `CHRONO`,
clears `LAST_DURATION`, writes the `Starting` line to the supplied
target, and installs that target as `OUTPUT_TARGET`. -/
def startWith (active : Bool) (now : Nat) (target : SinkId) (msg : String)
    (s : StimeState) : StimeState :=
  if active then
    { chrono := some now,
      lastDuration := none,
      outputTarget := target,
      writes := s.writes ++ [(target, Line.starting msg)] }
  else s

/-- The `start!(msg)` macro arm: it expands to
`start!(@::std::io::stderr(), msg)`, so the installed target is the
standard error stream. -/
def startNoTarget (active : Bool) (now : Nat) (msg : String)
    (s : StimeState) : StimeState :=
  startWith active now SinkId.stderr msg s

/-- The `check!(msg)` macro.  When the gate is off it returns before
touching anything.  Otherwise `CHRONO.lock()?.elapsed()` forces the lazy
cell — if unforced it is initialised to the current instant — and yields
`total = now - start_instant`; the delta is `total - last` when
`LAST_DURATION` holds `some last` (Rust `Duration` subtraction, modelled
by truncated `Nat` subtraction) and `total` otherwise; `LAST_DURATION`
is then set to `some total` and one line is written to the current
output target. -/
def check (active : Bool) (now : Nat) (msg : String)
    (s : StimeState) : StimeState :=
  if active then
    let startInstant := s.chrono.getD now
    let total := now - startInstant
    let delta :=
      match s.lastDuration with
      | some last => total - last
      | none => total
    { chrono := some startInstant,
      lastDuration := some total,
      outputTarget := s.outputTarget,
      writes := s.writes ++ [(s.outputTarget, Line.checkLine total delta msg)] }
  else s

/-- One call made through the macro layer: `start!` with or without an
explicit `@target`, or `check!`. -/
inductive Op where
  | startOp : Option SinkId → String → Op
  | checkOp : String → Op
deriving DecidableEq, Repr

/-- Dispatch of one macro call.  A `start!` without explicit target uses
the standard error stream, as the macro expansion does. -/
def step (active : Bool) (now : Nat) (op : Op) (s : StimeState) : StimeState :=
  match op with
  | Op.startOp (some tgt) msg => startWith active now tgt msg s
  | Op.startOp none msg => startNoTarget active now msg s
  | Op.checkOp msg => check active now msg s

/-- A whole sequence of macro calls, each paired with its clock reading. -/
def run (active : Bool) : List (Nat × Op) → StimeState → StimeState
  | [], s => s
  | (t, op) :: rest, s => run active rest (step active t op s)

/-- The display unit chosen by `FDur`. -/
inductive DurUnit where
  | secs : DurUnit
  | millis : DurUnit
  | micros : DurUnit
  | nanos : DurUnit
deriving DecidableEq, Repr

/-- The `Display` impl of `FDur`, stripped of colouring: for a duration
of `d` nanoseconds, if `as_secs() != 0` print whole seconds, else if
`as_millis() != 0` print whole milliseconds, else if `as_micros() != 0`
print whole microseconds, else print nanoseconds.  Returns the chosen
unit and the printed (truncated) count. -/
def fdur (d : Nat) : DurUnit × Nat :=
  if d / 1000000000 ≠ 0 then (DurUnit.secs, d / 1000000000)
  else if d / 1000000 ≠ 0 then (DurUnit.millis, d / 1000000)
  else if d / 1000 ≠ 0 then (DurUnit.micros, d / 1000)
  else (DurUnit.nanos, d)

/-- How a scope whose `time_it` guard is being dropped was exited.  The
`Drop` impl runs identically on each; the parameter records that the
exit path is not consulted. -/
inductive ExitKind where
  | normal : ExitKind
  | earlyReturn : ExitKind
  | unwinding : ExitKind
deriving DecidableEq, Repr

/-- Outcome of running the `Drop` impl of the `TimeIt` guard: either the
thread panics inside the destructor, or the destructor completes leaving
the given state. -/
inductive DropOutcome where
  | panicked : DropOutcome
  | completed : StimeState → DropOutcome
deriving DecidableEq, Repr

/-- The `Drop` impl of the guard returned by `time_it(msg)`.  `tStart`
is the `Instant::now()` taken when `time_it` was called, `tEnd` the one
taken at drop time; `poisoned` models the `OUTPUT_TARGET` mutex being
poisoned and `writeFails` the `writeln!` returning an error.

The body reads no activation flag and sees no exit kind (`active` and
`exit` are ambient facts it ignores).  `OUTPUT_TARGET.get()` is
`lock().unwrap()`, so a poisoned lock panics; the `writeln!` result is
discarded (`let _ = ...`), so a failed write completes with no line
appended. -/
def timeItDrop (_active : Bool) (_exit : ExitKind) (poisoned writeFails : Bool)
    (tStart tEnd : Nat) (msg : String) (s : StimeState) : DropOutcome :=
  if poisoned then DropOutcome.panicked
  else
    DropOutcome.completed
      { s with writes := s.writes ++
          if writeFails then []
          else [(s.outputTarget, Line.timeItLine msg (tEnd - tStart))] }

/-- One `start!` followed by `check!` calls at non-decreasing clock
readings, all with the gate on: a session.  `SessionReach t0 t s` says
state `s` is reachable by a session started at clock reading `t0` whose
most recent call read the clock at `t`; the monotonic clock never goes
backwards between calls. -/
inductive SessionReach (t0 : Nat) : Nat → StimeState → Prop where
  | started (tgt : SinkId) (msg : String) (s : StimeState) :
      SessionReach t0 t0 (startWith true t0 tgt msg s)
  | checked (t tN : Nat) (msg : String) (s : StimeState) :
      SessionReach t0 t s → t ≤ tN →
      SessionReach t0 tN (check true tN msg s)

/-! ## Theorems -/

/-- Invariant of a session: the start instant is pinned at `t0`, time
has not gone backwards, and `LAST_DURATION`, when present, holds the
total of the most recent check, namely `t - t0`. -/
theorem sessionReach_inv (t0 t : Nat) (s : StimeState)
    (h : SessionReach t0 t s) :
    s.chrono = some t0 ∧ t0 ≤ t ∧
    (s.lastDuration = none ∨ s.lastDuration = some (t - t0)) := by
  induction h with
  | started tgt msg s =>
    refine ⟨?_, Nat.le_refl t0, Or.inl ?_⟩ <;> simp [startWith]
  | checked t tN msg s hr htN ih =>
    obtain ⟨hc, ht, _⟩ := ih
    refine ⟨?_, Nat.le_trans ht htN, Or.inr ?_⟩ <;>
      simp [check, hc, Option.getD]

/-- C1: after a `start` at clock reading `t0`, a `check` at `t1`
computes total `d1 = t1 - t0` and records it; a second `check` at
`t2 ≥ t1` computes total `d2 = t2 - t0 ≥ d1` and reports delta exactly
`d2 - d1 = t2 - t1`; each check writes one line carrying its total and
delta and then stores its total as the new `LAST_DURATION`. -/
theorem check_twice_delta (s : StimeState) (t0 t1 t2 : Nat)
    (msg1 msg2 : String)
    (hc : s.chrono = some t0) (hl : s.lastDuration = none)
    (h01 : t0 ≤ t1) (h12 : t1 ≤ t2) :
    (check true t1 msg1 s).lastDuration = some (t1 - t0) ∧
    (check true t2 msg2 (check true t1 msg1 s)).lastDuration =
      some (t2 - t0) ∧
    (check true t2 msg2 (check true t1 msg1 s)).writes = s.writes ++
      [(s.outputTarget, Line.checkLine (t1 - t0) (t1 - t0) msg1),
       (s.outputTarget,
         Line.checkLine (t2 - t0) ((t2 - t0) - (t1 - t0)) msg2)] ∧
    t1 - t0 ≤ t2 - t0 ∧
    (t2 - t0) - (t1 - t0) = t2 - t1 := by
  refine ⟨?_, ?_, ?_, by omega, by omega⟩ <;>
    simp [check, hc, hl, Option.getD]

/-- Witness for `check_twice_delta`: a session with a start at 0 and
checks at 1 and 2; the second check records total 2. -/
theorem check_twice_delta_witness :
    (startWith true 0 SinkId.stderr "s" initState).chrono = some 0 ∧
    (startWith true 0 SinkId.stderr "s" initState).lastDuration = none ∧
    (0 : Nat) ≤ 1 ∧ (1 : Nat) ≤ 2 ∧
    (check true 2 "b" (check true 1 "a"
      (startWith true 0 SinkId.stderr "s" initState))).lastDuration =
      some 2 :=
  ⟨rfl, rfl, by decide, by decide,
    (check_twice_delta (startWith true 0 SinkId.stderr "s" initState)
      0 1 2 "a" "b" rfl rfl (by decide) (by decide)).2.1⟩

/-- C2: a `start` made after checks (so `LAST_DURATION = some d`)
clears `LAST_DURATION`, and the first `check` after that start, at
clock reading `t1 ≥ t0`, reports a delta equal to its own total
`t1 - t0`, not total minus the prior `d`. -/
theorem start_resets_delta (s : StimeState) (d t0 t1 : Nat)
    (tgt : SinkId) (msg msg2 : String)
    (_hl : s.lastDuration = some d) (_h01 : t0 ≤ t1) :
    (startWith true t0 tgt msg s).lastDuration = none ∧
    (check true t1 msg2 (startWith true t0 tgt msg s)).lastDuration =
      some (t1 - t0) ∧
    (check true t1 msg2 (startWith true t0 tgt msg s)).writes =
      (startWith true t0 tgt msg s).writes ++
        [(tgt, Line.checkLine (t1 - t0) (t1 - t0) msg2)] := by
  refine ⟨?_, ?_, ?_⟩ <;> simp [check, startWith, Option.getD]

/-- Witness for `start_resets_delta`: after a check recorded total 1, a
new start at 3 and a check at 5 report total = delta = 2. -/
theorem start_resets_delta_witness :
    (check true 1 "a" (startWith true 0 SinkId.stderr "s"
      initState)).lastDuration = some 1 ∧
    (3 : Nat) ≤ 5 ∧
    (check true 5 "c" (startWith true 3 SinkId.stderr "r"
      (check true 1 "a" (startWith true 0 SinkId.stderr "s"
        initState)))).lastDuration = some 2 :=
  ⟨rfl, by decide,
    (start_resets_delta
      (check true 1 "a" (startWith true 0 SinkId.stderr "s" initState))
      1 3 5 SinkId.stderr "r" "c" rfl (by decide)).2.1⟩

/-- C3: `FDur` picks the coarsest nonzero whole unit in the order
seconds, milliseconds, microseconds, nanoseconds, displaying the
truncated whole count in that unit; in particular 1,500,000 ns formats
as 1 with the millisecond unit. -/
theorem fdur_coarsest_unit (d : Nat) :
    fdur d =
      (if 1000000000 ≤ d then (DurUnit.secs, d / 1000000000)
       else if 1000000 ≤ d then (DurUnit.millis, d / 1000000)
       else if 1000 ≤ d then (DurUnit.micros, d / 1000)
       else (DurUnit.nanos, d)) ∧
    fdur 1500000 = (DurUnit.millis, 1) := by
  refine ⟨?_, by decide⟩
  unfold fdur
  split_ifs <;> first | rfl | (exfalso; omega)

/-- C4: with the activation gate off, any sequence of `start!` and
`check!` calls leaves the whole state — timer, output target, write
trace — exactly as it was; in particular a start supplying an explicit
target installs nothing and no line is written to any sink. -/
theorem run_inactive_noop (ops : List (Nat × Op)) (s : StimeState) :
    run false ops s = s := by
  induction ops generalizing s with
  | nil => rfl
  | cons p rest ih =>
    obtain ⟨t, op⟩ := p
    have hstep : step false t op s = s := by
      cases op with
      | startOp tgt msg =>
        cases tgt <;> simp [step, startWith, startNoTarget]
      | checkOp msg => simp [step, check]
    rw [run, hstep]
    exact ih s

/-- C5 counterexample: with the gate on and a custom sink installed, a
`start!` that supplies no explicit target does NOT leave the Output
Target unchanged — the macro expands to `start!(@stderr(), msg)` and
installs stderr, replacing the custom sink. -/
theorem startNoTarget_changes_target_cex :
    (startNoTarget true 5 "m"
      { chrono := none, lastDuration := none,
        outputTarget := SinkId.custom 0, writes := [] }).outputTarget ≠
      SinkId.custom 0 := by
  decide

/-- C5 amended: a `start!` without an explicit target (gate on) sets
the Output Target to the default sink, stderr, and writes its
`Starting` line there; so every active start mutates the Output Target,
with stderr substituted when no target is supplied. -/
theorem startNoTarget_sets_stderr (now : Nat) (msg : String)
    (s : StimeState) :
    (startNoTarget true now msg s).outputTarget = SinkId.stderr ∧
    (startNoTarget true now msg s).writes =
      s.writes ++ [(SinkId.stderr, Line.starting msg)] := by
  constructor <;> simp [startNoTarget, startWith]

/-- C6: a `start!` supplying target `X` installs `X` as the Output
Target and puts its `Starting` line on `X`; a subsequent `check!`
writes to `X` as well, so the two new lines land on `X` and no line is
added to any other sink. -/
theorem start_with_target_then_check (s : StimeState) (t1 t2 : Nat)
    (msg1 msg2 : String) (X : SinkId) :
    (check true t2 msg2 (startWith true t1 X msg1 s)).outputTarget = X ∧
    (check true t2 msg2 (startWith true t1 X msg1 s)).writes =
      s.writes ++
        [(X, Line.starting msg1),
         (X, Line.checkLine (t2 - t1) (t2 - t1) msg2)] := by
  constructor <;> simp [check, startWith, Option.getD]

/-- C7: the drop of a `time_it` guard appends exactly one line
`<msg>: <duration>` to the current Output Target, whatever the
activation flag and whatever kind of scope exit triggered the drop; and
when the write itself fails, the failure is swallowed — the drop still
completes, with no panic. -/
theorem timeIt_always_one_line (active : Bool) (k : ExitKind)
    (tS tE : Nat) (msg : String) (s : StimeState) :
    timeItDrop active k false false tS tE msg s =
      DropOutcome.completed { s with writes := s.writes ++
        [(s.outputTarget, Line.timeItLine msg (tE - tS))] } ∧
    timeItDrop active k false true tS tE msg s =
      DropOutcome.completed s := by
  constructor <;> simp [timeItDrop]

/-- C8: a `check!` made before any `start!` (both lazy cells unforced)
behaves exactly as if the start instant were the moment the timer state
is initialised — forcing `CHRONO` at this first use — and the line it
reports carries equal total and delta. -/
theorem check_unstarted (s : StimeState) (t : Nat) (msg : String)
    (hc : s.chrono = none) (hl : s.lastDuration = none) :
    check true t msg s = check true t msg { s with chrono := some t } ∧
    ∃ tot, (check true t msg s).writes =
      s.writes ++ [(s.outputTarget, Line.checkLine tot tot msg)] := by
  refine ⟨?_, 0, ?_⟩ <;> simp [check, hc, hl, Option.getD]

/-- Witness for `check_unstarted`: the first-ever call is a check at
clock reading 3. -/
theorem check_unstarted_witness :
    initState.chrono = none ∧ initState.lastDuration = none ∧
    check true 3 "m" initState =
      check true 3 "m" { initState with chrono := some 3 } :=
  ⟨rfl, rfl, (check_unstarted initState 3 "m" rfl rfl).1⟩

/-- C9: within one session (a start at `t0`, checks at non-decreasing
clock readings, no intervening start), a present `LAST_DURATION` value
`d` is at most the total `tN - t0` computed by the next check, so the
recorded totals never decrease and the delta subtraction
`total - last_elapsed` in `check!` is exact — it never underflows. -/
theorem lastElapsed_le_next_total (t0 t tN : Nat) (s : StimeState)
    (msg : String) (d : Nat)
    (hr : SessionReach t0 t s) (htN : t ≤ tN)
    (hd : s.lastDuration = some d) :
    d ≤ tN - t0 ∧
    (check true tN msg s).lastDuration = some (tN - t0) ∧
    (check true tN msg s).writes = s.writes ++
      [(s.outputTarget,
        Line.checkLine (tN - t0) ((tN - t0) - d) msg)] ∧
    ((tN - t0) - d) + d = tN - t0 := by
  obtain ⟨hc, ht, hl⟩ := sessionReach_inv t0 t s hr
  have hdv : d = t - t0 := by
    rcases hl with hnone | hsome
    · rw [hnone] at hd; exact absurd hd (by simp)
    · rw [hsome] at hd; exact (Option.some_inj.mp hd).symm
  refine ⟨by omega, ?_, ?_, by omega⟩ <;>
    simp [check, hc, hd, Option.getD]

/-- Witness for `lastElapsed_le_next_total`: session start at 0, check
at 1 (recording total 1), next check at 2: `1 ≤ 2 - 0` and the delta
subtraction is exact. -/
theorem lastElapsed_le_next_total_witness :
    (check true 1 "a" (startWith true 0 SinkId.stderr "s"
      initState)).lastDuration = some 1 ∧
    (1 : Nat) ≤ 2 ∧
    (1 ≤ 2 - 0 ∧
      (check true 2 "b" (check true 1 "a" (startWith true 0
        SinkId.stderr "s" initState))).lastDuration = some (2 - 0) ∧
      (check true 2 "b" (check true 1 "a" (startWith true 0
        SinkId.stderr "s" initState))).writes =
        (check true 1 "a" (startWith true 0 SinkId.stderr "s"
          initState)).writes ++
        [((check true 1 "a" (startWith true 0 SinkId.stderr "s"
            initState)).outputTarget,
          Line.checkLine (2 - 0) ((2 - 0) - 1) "b")] ∧
      ((2 - 0) - 1) + 1 = 2 - 0) :=
  ⟨rfl, by decide,
    lastElapsed_le_next_total 0 1 2
      (check true 1 "a" (startWith true 0 SinkId.stderr "s" initState))
      "b" 1
      (SessionReach.checked 0 1 "a" _
        (SessionReach.started SinkId.stderr "s" initState)
        (by decide))
      (by decide) rfl⟩

/-- C10: inside the `time_it` guard's destructor only the I/O write
failure is swallowed; `OUTPUT_TARGET.get()` unwraps the lock result, so
a poisoned lock still panics during cleanup, whatever the flag, the
exit kind, or the write outcome — whereas a mere write failure without
lock poisoning never panics. -/
theorem timeIt_lock_failure_panics (active : Bool) (k : ExitKind)
    (wf : Bool) (tS tE : Nat) (msg : String) (s : StimeState) :
    timeItDrop active k true wf tS tE msg s = DropOutcome.panicked ∧
    timeItDrop active k false true tS tE msg s ≠
      DropOutcome.panicked := by
  constructor <;> simp [timeItDrop]

end Stime
